import Mathlib

/-!
A shallow embedding of the `puppetca` Go package (`puppetca/puppetca.go`).

Pure string logic (`isFile`, URL and message construction) is translated
directly.  External effects — the TLS key-pair loaders
(`tls.LoadX509KeyPair`, `tls.X509KeyPair`), the file reader
(`ioutil.ReadFile`), URL parsing (`url.Parse`) and the HTTP transport
(`http.Client.Do` together with reading the response body) — are modelled
as oracle environments, so theorems can quantify over every outcome the
external world may produce.  Error wrapping follows `pkg/errors.Wrapf`,
whose rendered message is `context: cause`; `fmt` verbs with a missing
operand render as `%!s(MISSING)`, exactly as Go's `fmt` does.
-/

namespace PuppetCA

/-- `sub` is a prefix of `l` (over characters). -/
def listStarts : List Char → List Char → Bool
  | [], _ => true
  | _ :: _, [] => false
  | a :: as, b :: bs => a == b && listStarts as bs

/-- `sub` occurs contiguously somewhere in `l` (over characters). -/
def listHasInfix (sub l : List Char) : Bool :=
  match l with
  | [] => sub.isEmpty
  | c :: t => listStarts sub (c :: t) || listHasInfix sub t

/-- `strings.Contains s sub`: substring containment. -/
def strContains (s sub : String) : Bool := listHasInfix sub.data s.data

/-- `strings.HasPrefix s p`. -/
def strStarts (s p : String) : Bool := listStarts p.data s.data

/-- `strings.HasSuffix s p`. -/
def strEnds (s p : String) : Bool := listStarts p.data.reverse s.data.reverse

/-- The certificate PEM marker checked by `isFile`. -/
def certMarker : String := "-BEGIN CERTIFICATE-"

/-- The RSA-private-key PEM marker checked by `isFile`. -/
def rsaMarker : String := "-BEGIN RSA PRIVATE KEY-"

/-- `isFile` from `puppetca.go`: a string is treated as a file path unless it
contains a PEM marker; otherwise path-likeness is decided by the
`.pem`/`.cer`/`.key` suffixes and the `/`, `./`, `../` prefixes. -/
def isFile (str : String) : Bool :=
  if strContains str certMarker || strContains str rsaMarker then
    false
  else
    strEnds str ".pem" || strEnds str ".cer" || strEnds str ".key" ||
    strStarts str "/" || strStarts str "./" || strStarts str "../"

/-- The TLS configuration assembled by `NewClient`: the CA bytes appended to
the trust pool (`x509.CertPool` with `AppendCertsFromPEM`, whose boolean
result the code ignores) and the `InsecureSkipVerify` flag. -/
structure TLSSetup where
  caPool : String
  insecureSkipVerify : Bool
  deriving Repr, DecidableEq

/-- The `Client` struct: a base URL and the configured HTTP client
(`none` models Go's nil `*http.Client`). -/
structure Client where
  baseURL : String
  httpClient : Option TLSSetup
  deriving Repr, DecidableEq

/-- The zero value of `Client`: empty base URL, nil HTTP client.  This is
what `NewClient`'s named return `c` holds on every error path. -/
def zeroClient : Client := { baseURL := "", httpClient := none }

/-- Oracle for the external effects `NewClient` invokes:
`loadKeyPairFile` models `tls.LoadX509KeyPair(certFile, keyFile)`,
`loadKeyPairBytes` models `tls.X509KeyPair(certPEM, keyPEM)`,
`readFile` models `ioutil.ReadFile`.  Each returns the Go error message
on failure. -/
structure FSEnv where
  loadKeyPairFile : String → String → Except String Unit
  loadKeyPairBytes : String → String → Except String Unit
  readFile : String → Except String String

/-- `NewClient` from `puppetca.go`, returning the pair `(c, err)`:
classify cert and key, load the key pair, load the CA bytes, build the
trust pool (total — `AppendCertsFromPEM`'s result is ignored), assemble
the client. -/
def NewClient (env : FSEnv) (baseURL keyStr certStr caStr : String)
    (ignoreSsl : Bool) : Client × Option String :=
  let certLoad : Except String Unit :=
    if isFile certStr then
      if !(isFile keyStr) then
        .error "cert points to a file but key is a string"
      else
        match env.loadKeyPairFile certStr keyStr with
        | .error e => .error ("failed to load client cert from file " ++ certStr ++ ": " ++ e)
        | .ok u => .ok u
    else
      if isFile keyStr then
        .error "cert is a string but key points to a file"
      else
        match env.loadKeyPairBytes certStr keyStr with
        | .error e => .error ("failed to load client cert from string: " ++ e)
        | .ok u => .ok u
  match certLoad with
  | .error e => (zeroClient, some e)
  | .ok _ =>
    let caLoad : Except String String :=
      if isFile caStr then
        match env.readFile caStr with
        | .error e => .error ("failed to load CA cert at " ++ caStr ++ ": " ++ e)
        | .ok bytes => .ok bytes
      else
        .ok caStr
    match caLoad with
    | .error e => (zeroClient, some e)
    | .ok caCert =>
      ({ baseURL := baseURL,
         httpClient := some { caPool := caCert, insecureSkipVerify := ignoreSsl } },
       none)

/-- An HTTP request as `Do` builds it: method, parsed URL (kept as the full
URL string), header list (empty unless a payload is attached) and optional
body. -/
structure Request where
  method : String
  url : String
  header : List (String × String)
  body : Option String
  deriving Repr, DecidableEq

/-- Outcome of `httpClient.Do`: either a transport error, or a response
carrying the numeric status code, the status line (`resp.Status`, e.g.
`"404 Not Found"`), and the outcome `ioutil.ReadAll(resp.Body)` would
produce if the body were read. -/
inductive HTTPOutcome where
  | transportError (e : String)
  | response (statusCode : Nat) (status : String) (bodyRead : Except String String)

/-- Oracle for `Do`'s external effects: `url.Parse` (success or the parse
error message) and the HTTP round trip. -/
structure HTTPEnv where
  urlParse : String → Except String Unit
  send : Request → HTTPOutcome

/-- The result of one `Do` call, instrumented for verification: the returned
`(string, error)` pair, the request that was handed to the transport (if
any), and whether `resp.Body.Close()` ran before `Do` returned. -/
structure DoTrace where
  result : Except String String
  issued : Option Request
  bodyClosed : Bool
  deriving Repr

/-- `fmt.Sprintf("%s/puppet-ca/v1/%s", baseURL, path)`. -/
def fullPath (baseURL path : String) : String :=
  baseURL ++ "/puppet-ca/v1/" ++ path

/-- The request `Do` constructs: a content-type header of `text/pson` and a
body stream are attached exactly when the payload is non-empty. -/
def buildRequest (method url payload : String) : Request :=
  if payload != "" then
    { method := method, url := url,
      header := [("Content-Type", "text/pson")], body := some payload }
  else
    { method := method, url := url, header := [], body := none }

/-- `Do` from `puppetca.go`.  Mirrors the Go control flow exactly, including
the placement of `defer resp.Body.Close()` AFTER the early return on a
non-200/204 status (so `bodyClosed` is `false` on that path), and the
body-read error wrap `errors.Wrapf(err, "failed to read body response
from %s")` whose `%s` has no operand and hence renders `%!s(MISSING)`. -/
def Do (env : HTTPEnv) (baseURL method path payload : String) : DoTrace :=
  let fp := fullPath baseURL path
  match env.urlParse fp with
  | .error e =>
    { result := .error ("failed to parse URL " ++ fp ++ ": " ++ e),
      issued := none, bodyClosed := false }
  | .ok _ =>
    let req := buildRequest method fp payload
    match env.send req with
    | .transportError e =>
      { result := .error ("failed to " ++ method ++ " URL " ++ fp ++ ": " ++ e),
        issued := some req, bodyClosed := false }
    | .response code status bodyRead =>
      if (code != 200) && (code != 204) then
        { result := .error ("failed to " ++ method ++ " URL " ++ fp ++ ", got: " ++ status),
          issued := some req, bodyClosed := false }
      else
        match bodyRead with
        | .error e =>
          { result := .error ("failed to read body response from %!s(MISSING): " ++ e),
            issued := some req, bodyClosed := true }
        | .ok content =>
          { result := .ok content, issued := some req, bodyClosed := true }

/-- `Client.Get`. -/
def Get (env : HTTPEnv) (baseURL path : String) : DoTrace :=
  Do env baseURL "GET" path ""

/-- `Client.Delete`. -/
def Delete (env : HTTPEnv) (baseURL path : String) : DoTrace :=
  Do env baseURL "DELETE" path ""

/-- `Client.Put`. -/
def Put (env : HTTPEnv) (baseURL path payload : String) : DoTrace :=
  Do env baseURL "PUT" path payload

/-- `fmt.Sprintf("certificate_status/%s", nodename)`. -/
def certStatusPath (nodename : String) : String :=
  "certificate_status/" ++ nodename

/-- The literal PUT payload of `SignCertByName`. -/
def signPayload : String := "\x7b\"desired_state\":\"signed\"\x7d"

/-- `GetCertByName`: GET `certificate_status/{name}`, wrapping any error
with `failed to retrieve certificate {name}` and returning the body. -/
def GetCertByName (env : HTTPEnv) (baseURL nodename : String) :
    Except String String × DoTrace :=
  let t := Get env baseURL (certStatusPath nodename)
  match t.result with
  | .error e =>
    (.error ("failed to retrieve certificate " ++ nodename ++ ": " ++ e), t)
  | .ok certInfo => (.ok certInfo, t)

/-- `DeleteCertByName`: DELETE `certificate_status/{name}`, wrapping any
error with `failed to delete certificate {name}`; the body is dropped. -/
def DeleteCertByName (env : HTTPEnv) (baseURL nodename : String) :
    Except String Unit × DoTrace :=
  let t := Delete env baseURL (certStatusPath nodename)
  match t.result with
  | .error e =>
    (.error ("failed to delete certificate " ++ nodename ++ ": " ++ e), t)
  | .ok _ => (.ok (), t)

/-- `SignCertByName`: PUT `certificate_status/{name}` with the fixed
`desired_state: signed` payload, wrapping any error with `failed to sign
certificate {name}`; the body is dropped. -/
def SignCertByName (env : HTTPEnv) (baseURL nodename : String) :
    Except String Unit × DoTrace :=
  let t := Put env baseURL (certStatusPath nodename) signPayload
  match t.result with
  | .error e =>
    (.error ("failed to sign certificate " ++ nodename ++ ": " ++ e), t)
  | .ok _ => (.ok (), t)

/-- An oracle in which every external call succeeds (loads parse, file reads
return empty bytes). -/
def fsOkEnv : FSEnv :=
  { loadKeyPairFile := fun _ _ => .ok ()
    loadKeyPairBytes := fun _ _ => .ok ()
    readFile := fun _ => .ok "" }

/-- An oracle in which every key-pair load and file read fails, with the
messages the Go standard library produces. -/
def fsFailEnv : FSEnv :=
  { loadKeyPairFile := fun _ _ => .error "tls: failed to find any PEM data in certificate input"
    loadKeyPairBytes := fun _ _ => .error "tls: failed to find any PEM data in certificate input"
    readFile := fun _ => .error "open: no such file or directory" }

/-- An HTTP oracle that accepts every URL and answers every request with the
same response. -/
def constEnv (code : Nat) (status : String) (bodyRead : Except String String) :
    HTTPEnv :=
  { urlParse := fun _ => .ok ()
    send := fun _ => .response code status bodyRead }

/-- The full URL of the certificate-status resource, with the literals
merged: `{baseURL}/puppet-ca/v1/certificate_status/{name}`. -/
theorem fullPath_certStatus (baseURL name : String) :
    fullPath baseURL (certStatusPath name) =
      baseURL ++ "/puppet-ca/v1/certificate_status/" ++ name := by
  unfold fullPath certStatusPath
  apply String.ext
  simp [String.data_append]

/-- When `url.Parse` succeeds, the request `Do` hands to the transport is
exactly `buildRequest` of the method, full URL and payload — whatever the
transport then answers. -/
theorem Do_issued (env : HTTPEnv) (baseURL method path payload : String)
    (h : env.urlParse (fullPath baseURL path) = .ok ()) :
    (Do env baseURL method path payload).issued =
      some (buildRequest method (fullPath baseURL path) payload) := by
  unfold Do
  dsimp only
  rw [h]
  rcases hsend : env.send (buildRequest method (fullPath baseURL path) payload)
      with e | ⟨code, status, br⟩
  · rfl
  · dsimp only
    split
    · rfl
    · cases br <;> rfl

/-- The trace of `GetCertByName` is the trace of the underlying `Do`. -/
theorem GetCertByName_trace (env : HTTPEnv) (b n : String) :
    (GetCertByName env b n).2 = Do env b "GET" (certStatusPath n) "" := by
  unfold GetCertByName Get
  dsimp only
  split <;> rfl

/-- The trace of `DeleteCertByName` is the trace of the underlying `Do`. -/
theorem DeleteCertByName_trace (env : HTTPEnv) (b n : String) :
    (DeleteCertByName env b n).2 = Do env b "DELETE" (certStatusPath n) "" := by
  unfold DeleteCertByName Delete
  dsimp only
  split <;> rfl

/-- The trace of `SignCertByName` is the trace of the underlying `Do`. -/
theorem SignCertByName_trace (env : HTTPEnv) (b n : String) :
    (SignCertByName env b n).2 = Do env b "PUT" (certStatusPath n) signPayload := by
  unfold SignCertByName Put
  dsimp only
  split <;> rfl

/-- C1: every input string containing a certificate PEM marker or an
RSA-private-key PEM marker is classified as inline content (`isFile`
returns `false`), regardless of any path-like suffix or prefix it also
has — the marker check takes precedence over the path rules. -/
theorem C1_marker_forces_inline (s : String)
    (h : strContains s certMarker = true ∨ strContains s rsaMarker = true) :
    isFile s = false := by
  rcases h with h | h <;> simp [isFile, h]

/-- C1 witness: a string that contains the certificate marker AND ends with
`.pem` AND begins with `/` is still classified inline. -/
theorem C1_witness :
    strContains "/-BEGIN CERTIFICATE-.pem" certMarker = true ∧
    strEnds "/-BEGIN CERTIFICATE-.pem" ".pem" = true ∧
    strStarts "/-BEGIN CERTIFICATE-.pem" "/" = true ∧
    isFile "/-BEGIN CERTIFICATE-.pem" = false :=
  ⟨by decide, by decide, by decide,
   C1_marker_forces_inline "/-BEGIN CERTIFICATE-.pem" (Or.inl (by decide))⟩

/-- C2: for strings containing neither PEM marker, classification is
FilePath (`isFile` returns `true`) iff the string ends with `.pem`,
`.cer`, or `.key`, or begins with `/`, `./`, or `../`; all other such
strings are inline content. -/
theorem C2_no_marker_path_rules (s : String)
    (h1 : strContains s certMarker = false)
    (h2 : strContains s rsaMarker = false) :
    isFile s = true ↔
      (strEnds s ".pem" = true ∨ strEnds s ".cer" = true ∨ strEnds s ".key" = true ∨
       strStarts s "/" = true ∨ strStarts s "./" = true ∨ strStarts s "../" = true) := by
  simp [isFile, h1, h2]
  tauto

/-- C2 witness: `foo.pem` has no marker and is classified as a file path. -/
theorem C2_witness :
    strContains "foo.pem" certMarker = false ∧
    strContains "foo.pem" rsaMarker = false ∧
    isFile "foo.pem" = true :=
  ⟨by decide, by decide,
   (C2_no_marker_path_rules "foo.pem" (by decide) (by decide)).mpr
     (Or.inl (by decide))⟩

/-- C3: when the certificate and key inputs classify differently,
`NewClient` fails with the direction-distinguishing mismatch error and
returns the zero client; the result is identical under every oracle, so
no key-pair load or file read is ever attempted. -/
theorem C3_mismatch_fails_before_load (env env2 : FSEnv)
    (baseURL keyStr certStr caStr : String) (ssl : Bool)
    (h : isFile certStr ≠ isFile keyStr) :
    NewClient env baseURL keyStr certStr caStr ssl =
      (zeroClient,
       some (if isFile certStr then "cert points to a file but key is a string"
             else "cert is a string but key points to a file")) ∧
    NewClient env baseURL keyStr certStr caStr ssl =
      NewClient env2 baseURL keyStr certStr caStr ssl := by
  cases hc : isFile certStr <;> cases hk : isFile keyStr <;>
    simp [hc, hk] at h ⊢ <;> simp [NewClient, hc, hk]

/-- C3 witness: a file-path certificate with an inline key fails with the
cert-is-file message, under an oracle whose loaders all succeed — so the
failure cannot have come from a load. -/
theorem C3_witness :
    NewClient fsOkEnv "https://puppet:8140" "inlinekey" "/etc/cert.pem" "ca" false =
      (zeroClient,
       some (if isFile "/etc/cert.pem" then "cert points to a file but key is a string"
             else "cert is a string but key points to a file")) :=
  (C3_mismatch_fails_before_load fsOkEnv fsFailEnv "https://puppet:8140"
    "inlinekey" "/etc/cert.pem" "ca" false (by decide)).1

/-- C4: for every node name (given the full URL parses), `GetCertByName`
issues a GET and `DeleteCertByName` a DELETE to
`{baseURL}/puppet-ca/v1/certificate_status/{name}` with no body and no
content-type header, and `SignCertByName` issues a PUT to the same path
with body `{"desired_state":"signed"}` and content-type `text/pson`;
in every request `Do` builds, the content-type header is set iff the
payload is non-empty. -/
theorem C4_convenience_requests (env : HTTPEnv) (baseURL name : String)
    (h : env.urlParse (fullPath baseURL (certStatusPath name)) = .ok ()) :
    (GetCertByName env baseURL name).2.issued =
      some { method := "GET",
             url := baseURL ++ "/puppet-ca/v1/certificate_status/" ++ name,
             header := [], body := none } ∧
    (DeleteCertByName env baseURL name).2.issued =
      some { method := "DELETE",
             url := baseURL ++ "/puppet-ca/v1/certificate_status/" ++ name,
             header := [], body := none } ∧
    (SignCertByName env baseURL name).2.issued =
      some { method := "PUT",
             url := baseURL ++ "/puppet-ca/v1/certificate_status/" ++ name,
             header := [("Content-Type", "text/pson")],
             body := some "\x7b\"desired_state\":\"signed\"\x7d" } ∧
    ∀ method url payload,
      ((buildRequest method url payload).header = [("Content-Type", "text/pson")] ↔
        payload ≠ "") ∧
      ((buildRequest method url payload).header = [] ↔ payload = "") := by
  have hg := Do_issued env baseURL "GET" (certStatusPath name) "" h
  have hd := Do_issued env baseURL "DELETE" (certStatusPath name) "" h
  have hp := Do_issued env baseURL "PUT" (certStatusPath name) signPayload h
  rw [fullPath_certStatus] at hg hd hp
  have hsp : (signPayload != "") = true := by decide
  refine ⟨?_, ?_, ?_, ?_⟩
  · rw [GetCertByName_trace, hg]
    simp [buildRequest]
  · rw [DeleteCertByName_trace, hd]
    simp [buildRequest]
  · rw [SignCertByName_trace, hp]
    simp [buildRequest, hsp]
    rfl
  · intro m u p
    by_cases hp2 : p = "" <;> simp [buildRequest, hp2]

/-- C4 witness: at a concrete base URL and node name, `GetCertByName`
issues the specified GET request. -/
theorem C4_witness :
    (GetCertByName (constEnv 200 "200 OK" (Except.ok "")) "https://puppet:8140"
        "node1").2.issued =
      some { method := "GET",
             url := "https://puppet:8140" ++ "/puppet-ca/v1/certificate_status/" ++ "node1",
             header := [], body := none } :=
  (C4_convenience_requests (constEnv 200 "200 OK" (Except.ok ""))
    "https://puppet:8140" "node1" rfl).1

/-- C5: a response of status 200 or 204 makes `Do` return the body (and the
three convenience operations succeed, `GetCertByName` returning the
body); any other status makes `Do` and all three operations return an
error carrying the method, the full URL and the status line, for every
response body alike (the body is discarded, never surfaced). -/
theorem C5_status_handling (code : Nat)
    (status body baseURL method path payload name : String) :
    ((code = 200 ∨ code = 204) →
      (Do (constEnv code status (.ok body)) baseURL method path payload).result =
        .ok body ∧
      (GetCertByName (constEnv code status (.ok body)) baseURL name).1 = .ok body ∧
      (DeleteCertByName (constEnv code status (.ok body)) baseURL name).1 = .ok () ∧
      (SignCertByName (constEnv code status (.ok body)) baseURL name).1 = .ok ()) ∧
    (code ≠ 200 → code ≠ 204 →
      ∀ body2 : String,
        (Do (constEnv code status (.ok body2)) baseURL method path payload).result =
          .error ("failed to " ++ method ++ " URL " ++ fullPath baseURL path ++
            ", got: " ++ status) ∧
        (GetCertByName (constEnv code status (.ok body2)) baseURL name).1 =
          .error ("failed to retrieve certificate " ++ name ++ ": " ++
            ("failed to " ++ "GET" ++ " URL " ++ fullPath baseURL (certStatusPath name) ++
              ", got: " ++ status)) ∧
        (DeleteCertByName (constEnv code status (.ok body2)) baseURL name).1 =
          .error ("failed to delete certificate " ++ name ++ ": " ++
            ("failed to " ++ "DELETE" ++ " URL " ++ fullPath baseURL (certStatusPath name) ++
              ", got: " ++ status)) ∧
        (SignCertByName (constEnv code status (.ok body2)) baseURL name).1 =
          .error ("failed to sign certificate " ++ name ++ ": " ++
            ("failed to " ++ "PUT" ++ " URL " ++ fullPath baseURL (certStatusPath name) ++
              ", got: " ++ status))) := by
  constructor
  · rintro (rfl | rfl) <;>
      simp [Do, constEnv, GetCertByName, DeleteCertByName, SignCertByName,
        Get, Delete, Put, buildRequest]
  · intro h1 h2 body2
    have hb1 : (code != 200) = true := by simpa using h1
    have hb2 : (code != 204) = true := by simpa using h2
    simp [Do, constEnv, GetCertByName, DeleteCertByName, SignCertByName,
      Get, Delete, Put, buildRequest, hb1, hb2]

/-- C5 witness: status 200 yields the body, status 404 yields the
method/URL/status error, at concrete inputs. -/
theorem C5_witness :
    (Do (constEnv 200 "200 OK" (Except.ok "BODY")) "https://puppet:8140" "GET"
        "certificate_status/node1" "").result = .ok "BODY" ∧
    (Do (constEnv 404 "404 Not Found" (Except.ok "ignored")) "https://puppet:8140"
        "GET" "certificate_status/node1" "").result =
      .error ("failed to " ++ "GET" ++ " URL " ++
        fullPath "https://puppet:8140" "certificate_status/node1" ++
        ", got: " ++ "404 Not Found") :=
  ⟨((C5_status_handling 200 "200 OK" "BODY" "https://puppet:8140" "GET"
      "certificate_status/node1" "" "node1").1 (Or.inl rfl)).1,
   ((C5_status_handling 404 "404 Not Found" "x" "https://puppet:8140" "GET"
      "certificate_status/node1" "" "node1").2 (by decide) (by decide) "ignored").1⟩

/-- C6 (code bug): on a non-200/204 status, `Do` returns WITHOUT closing the
response body — the `defer resp.Body.Close()` in the Go source is placed
after that early return, so it is never registered on this path.  On the
success and mid-stream read-failure paths the body is closed.  This
contradicts the spec's requirement that the stream is released on every
path on which a response was received. -/
theorem C6_body_not_closed_on_bad_status :
    (Do (constEnv 404 "404 Not Found" (Except.ok "")) "https://puppet:8140" "GET"
        (certStatusPath "node1") "").bodyClosed = false ∧
    (Do (constEnv 200 "200 OK" (Except.ok "cert")) "https://puppet:8140" "GET"
        (certStatusPath "node1") "").bodyClosed = true ∧
    (Do (constEnv 200 "200 OK" (Except.error "unexpected EOF")) "https://puppet:8140"
        "GET" (certStatusPath "node1") "").bodyClosed = true :=
  ⟨rfl, rfl, rfl⟩

/-- C7: when certificate and key classify identically and the key-pair load
fails, `NewClient` returns the zero-value client together with an error
that wraps the underlying cause and carries the load context (the
certificate file path in the file branch, the inline-string tag in the
inline branch). -/
theorem C7_load_failure (env : FSEnv) (baseURL keyStr certStr caStr e : String)
    (ssl : Bool) :
    (isFile certStr = true → isFile keyStr = true →
      env.loadKeyPairFile certStr keyStr = .error e →
      NewClient env baseURL keyStr certStr caStr ssl =
        (zeroClient,
         some ("failed to load client cert from file " ++ certStr ++ ": " ++ e))) ∧
    (isFile certStr = false → isFile keyStr = false →
      env.loadKeyPairBytes certStr keyStr = .error e →
      NewClient env baseURL keyStr certStr caStr ssl =
        (zeroClient, some ("failed to load client cert from string: " ++ e))) := by
  constructor
  · intro hc hk hl
    simp [NewClient, hc, hk, hl]
  · intro hc hk hl
    simp [NewClient, hc, hk, hl]

/-- C7 witness: two file-path inputs whose load fails yield the zero client
and the wrapped error naming the certificate file. -/
theorem C7_witness :
    NewClient fsFailEnv "https://puppet:8140" "/etc/key.key" "/etc/cert.pem" "ca" false =
      (zeroClient,
       some ("failed to load client cert from file " ++ "/etc/cert.pem" ++ ": " ++
         "tls: failed to find any PEM data in certificate input")) :=
  (C7_load_failure fsFailEnv "https://puppet:8140" "/etc/key.key" "/etc/cert.pem"
    "ca" "tls: failed to find any PEM data in certificate input" false).1
    (by decide) (by decide) rfl

/-- C8: once the key pair loads, `NewClient` never fails because of CA
content: for every inline CA string whatsoever (malformed or empty
included) — and for every file CA whose read succeeds — construction
returns a configured client with the CA bytes in the pool and no
error. -/
theorem C8_ca_never_fails (env : FSEnv)
    (baseURL keyStr certStr caStr caBytes : String) (ssl : Bool)
    (hmatch : isFile certStr = isFile keyStr)
    (hfile : isFile certStr = true → isFile keyStr = true →
      env.loadKeyPairFile certStr keyStr = .ok ())
    (hbytes : isFile certStr = false → isFile keyStr = false →
      env.loadKeyPairBytes certStr keyStr = .ok ()) :
    (isFile caStr = false →
      NewClient env baseURL keyStr certStr caStr ssl =
        ({ baseURL := baseURL,
           httpClient := some { caPool := caStr, insecureSkipVerify := ssl } }, none)) ∧
    (isFile caStr = true → env.readFile caStr = .ok caBytes →
      NewClient env baseURL keyStr certStr caStr ssl =
        ({ baseURL := baseURL,
           httpClient := some { caPool := caBytes, insecureSkipVerify := ssl } },
         none)) := by
  constructor
  · intro hca
    cases hc : isFile certStr
    · have hk : isFile keyStr = false := by rw [← hmatch, hc]
      simp [NewClient, hc, hk, hbytes hc hk, hca]
    · have hk : isFile keyStr = true := by rw [← hmatch, hc]
      simp [NewClient, hc, hk, hfile hc hk, hca]
  · intro hca hread
    cases hc : isFile certStr
    · have hk : isFile keyStr = false := by rw [← hmatch, hc]
      simp [NewClient, hc, hk, hbytes hc hk, hca, hread]
    · have hk : isFile keyStr = true := by rw [← hmatch, hc]
      simp [NewClient, hc, hk, hfile hc hk, hca, hread]

/-- C8 witness: an inline CA string that is not PEM at all is accepted
silently; construction succeeds and the garbage lands in the pool. -/
theorem C8_witness :
    NewClient fsOkEnv "https://puppet:8140" "keydata" "certdata" "not a valid pem" false =
      ({ baseURL := "https://puppet:8140",
         httpClient := some { caPool := "not a valid pem", insecureSkipVerify := false } },
       none) :=
  (C8_ca_never_fails fsOkEnv "https://puppet:8140" "keydata" "certdata"
    "not a valid pem" "" false (by decide) (fun _ _ => rfl) (fun _ _ => rfl)).1
    (by decide)

/-- C9 (code bug): the body-read error wrap in `Do` is
`errors.Wrapf(err, "failed to read body response from %s")` with no
operand for `%s`, so the rendered message is
`failed to read body response from %!s(MISSING): {cause}` — it wraps the
cause but identifies neither the method, nor the URL, nor the node of
the request whose body read failed. -/
theorem C9_body_read_error_no_context :
    (Do (constEnv 200 "200 OK" (Except.error "unexpected EOF")) "https://puppet:8140"
        "GET" (certStatusPath "node1") "").result =
      .error ("failed to read body response from %!s(MISSING): " ++ "unexpected EOF") ∧
    strContains ("failed to read body response from %!s(MISSING): " ++ "unexpected EOF")
      "https://puppet:8140" = false ∧
    strContains ("failed to read body response from %!s(MISSING): " ++ "unexpected EOF")
      "GET" = false ∧
    strContains ("failed to read body response from %!s(MISSING): " ++ "unexpected EOF")
      "node1" = false :=
  ⟨rfl, by decide, by decide, by decide⟩

/-- C10: the three convenience operations interpolate the node name
verbatim: the relative path is `certificate_status/{name}` by plain
concatenation, the full URL is
`{baseURL}/puppet-ca/v1/certificate_status/{name}`, a request is issued
for every name whatsoever (no validation or rejection), and two names
producing the same full URL are equal — so any change to the name
(a `/`, a `?`, anything) changes the URL. -/
theorem C10_name_verbatim (baseURL name name2 : String) :
    certStatusPath name = "certificate_status/" ++ name ∧
    fullPath baseURL (certStatusPath name) =
      baseURL ++ "/puppet-ca/v1/certificate_status/" ++ name ∧
    ((GetCertByName (constEnv 200 "200 OK" (Except.ok "")) baseURL name).2.issued.map
        Request.url =
      some (baseURL ++ "/puppet-ca/v1/certificate_status/" ++ name)) ∧
    ((DeleteCertByName (constEnv 200 "200 OK" (Except.ok "")) baseURL name).2.issued.map
        Request.url =
      some (baseURL ++ "/puppet-ca/v1/certificate_status/" ++ name)) ∧
    ((SignCertByName (constEnv 200 "200 OK" (Except.ok "")) baseURL name).2.issued.map
        Request.url =
      some (baseURL ++ "/puppet-ca/v1/certificate_status/" ++ name)) ∧
    (fullPath baseURL (certStatusPath name) = fullPath baseURL (certStatusPath name2) →
      name = name2) := by
  have hg := Do_issued (constEnv 200 "200 OK" (Except.ok "")) baseURL "GET"
    (certStatusPath name) "" rfl
  have hd := Do_issued (constEnv 200 "200 OK" (Except.ok "")) baseURL "DELETE"
    (certStatusPath name) "" rfl
  have hp := Do_issued (constEnv 200 "200 OK" (Except.ok "")) baseURL "PUT"
    (certStatusPath name) signPayload rfl
  rw [fullPath_certStatus] at hg hd hp
  have hsp : (signPayload != "") = true := by decide
  refine ⟨rfl, fullPath_certStatus baseURL name, ?_, ?_, ?_, ?_⟩
  · rw [GetCertByName_trace, hg]
    simp [buildRequest]
  · rw [DeleteCertByName_trace, hd]
    simp [buildRequest]
  · rw [SignCertByName_trace, hp]
    simp [buildRequest, hsp]
  · intro h
    have h2 := congrArg String.data h
    simp [fullPath, certStatusPath, String.data_append] at h2
    exact String.ext h2

/-- C10 witness: at a concrete base URL and name, the full URL is the
verbatim concatenation, and the URL-equality implication holds. -/
theorem C10_witness :
    fullPath "https://puppet:8140" (certStatusPath "node1") =
      "https://puppet:8140" ++ "/puppet-ca/v1/certificate_status/" ++ "node1" ∧
    "node1" = "node1" :=
  ⟨(C10_name_verbatim "https://puppet:8140" "node1" "node1").2.1,
   (C10_name_verbatim "https://puppet:8140" "node1" "node1").2.2.2.2.2 rfl⟩

end PuppetCA
